import Mathlib

/-!
# godpu: the `evpnipsec` command group (`cmd/evpnipsec/ipsec-evpn.go`)

A shallow embedding of the three constructors of the file
(`AddSaCommand`, `DelSaCommand`, `NewEvpnIPSecCommand`) and of the `Run`
closures of the two subcommands.

* The local variables of a constructor (`src`, `dst`, `spi`, ...) are the
  cells of a store; a flag registration binds a flag name to one cell.
* A run of a command is a function from the environment (the results of the
  calls the command makes into other packages) to the trace of the calls it
  made plus the way the run ended.
* Code that lives in other packages (`evpnipsec.NewIPSecClient`, the methods
  `AddSA` and `DelSA`, the constants `common.TLSFiles` and
  `common.AddrCmdLineArg`) is a parameter of the run.
-/

namespace Evpnipsec

/-! ## Values and flags -/

/-- The three Go types of the flag variables. -/
inductive FlagType where
  | string
  | uint32
  | int32
deriving DecidableEq, Repr

/-- A value held by a flag variable. -/
inductive FlagValue where
  | str (s : String)
  | u32 (n : Nat)
  | i32 (z : Int)
deriving DecidableEq, Repr

/-- Membership of a value in a Go type: `uint32` is `0 .. 2^32 - 1`, `int32` is `-2^31 .. 2^31 - 1`. -/
def FlagValue.hasType : FlagValue → FlagType → Bool
  | .str _, .string => true
  | .u32 n, .uint32 => decide (n < 2 ^ 32)
  | .i32 z, .int32 => decide (-(2 ^ 31 : Int) ≤ z) && decide (z < (2 ^ 31 : Int))
  | _, _ => false

/-- The zero value of a Go type, the content of a declared and not yet assigned variable. -/
def FlagType.zero : FlagType → FlagValue
  | .string => .str ""
  | .uint32 => .u32 0
  | .int32 => .i32 0

/-- One registration `cmd.Flags().XxxVar(&target, name, value, usage)`. -/
structure FlagDef (Var : Type) where
  target : Var
  name : String
  typ : FlagType
  value : FlagValue
  usage : String
deriving DecidableEq, Repr

/-- The variables of a constructor: one cell per declared variable. -/
abbrev Store (Var : Type) := Var → FlagValue

/-- The `var ( ... )` block of `AddSaCommand`, lines 20-43. -/
inductive AddSaVar where
  | src | dst | spi | proto | ifID | reqid | mode | intrface | encAlg | encKey | intAlg
  | intKey | replayWindow | tfc | encap | esn | copyDf | copyEcn | copyDscp | initiator
  | inbound | update
deriving DecidableEq, Repr

/-- The declared Go type of each variable of `AddSaCommand`, lines 21-42. -/
def AddSaVar.typ : AddSaVar → FlagType
  | .src => .string
  | .dst => .string
  | .spi => .uint32
  | .proto => .int32
  | .ifID => .uint32
  | .reqid => .uint32
  | .mode => .int32
  | .intrface => .string
  | .encAlg => .int32
  | .encKey => .string
  | .intAlg => .int32
  | .intKey => .string
  | .replayWindow => .uint32
  | .tfc => .uint32
  | .encap => .int32
  | .esn => .int32
  | .copyDf => .int32
  | .copyEcn => .int32
  | .copyDscp => .int32
  | .initiator => .int32
  | .inbound => .int32
  | .update => .int32

/-- The `var ( ... )` block of `DelSaCommand`, lines 103-109. -/
inductive DelSaVar where
  | src | dst | spi | proto | ifID
deriving DecidableEq, Repr

/-- The declared Go type of each variable of `DelSaCommand`, lines 104-108. -/
def DelSaVar.typ : DelSaVar → FlagType
  | .src => .string
  | .dst => .string
  | .spi => .uint32
  | .proto => .int32
  | .ifID => .uint32

/-- The flag registrations of `AddSaCommand`, lines 75-96, in source order. -/
def addSaFlags : List (FlagDef AddSaVar) :=
  [ ⟨.src, "src", .string, .str "", "Source address or hostname"⟩,
    ⟨.dst, "dst", .string, .str "", "Destination address or hostname"⟩,
    ⟨.spi, "spi", .uint32, .u32 0, "SPI"⟩,
    ⟨.proto, "proto", .int32, .i32 0, "Protocol (ESP/AH)"⟩,
    ⟨.ifID, "if_id", .uint32, .u32 0, "Interface ID"⟩,
    ⟨.reqid, "reqid", .uint32, .u32 0, "Reqid"⟩,
    ⟨.mode, "mode", .int32, .i32 0, "Mode (tunnel, transport...)"⟩,
    ⟨.intrface, "interface", .string, .str "", "Network interface restricting policy"⟩,
    ⟨.encAlg, "enc_alg", .int32, .i32 0, "Encryption algorithm"⟩,
    ⟨.encKey, "enc_key", .string, .str "", "Encryption key"⟩,
    ⟨.intAlg, "int_alg", .int32, .i32 0, "Integrity protection algorithm"⟩,
    ⟨.intKey, "int_key", .string, .str "", "Integrity protection key"⟩,
    ⟨.replayWindow, "replay_window", .uint32, .u32 0, "Anti-replay window size"⟩,
    ⟨.tfc, "tfc", .uint32, .u32 0, "Traffic Flow Confidentiality padding"⟩,
    ⟨.encap, "encap", .int32, .i32 0, "Enable UDP encapsulation for NAT traversal"⟩,
    ⟨.esn, "esn", .int32, .i32 0, "Mark the SA should apply to packets after processing"⟩,
    ⟨.copyDf, "copy_df", .int32, .i32 0,
      "Copy the DF bit to the outer IPv4 header in tunnel mode"⟩,
    ⟨.copyEcn, "copy_ecn", .int32, .i32 0,
      "Copy the ECN header field to/from the outer header"⟩,
    ⟨.copyDscp, "copy_dscp", .int32, .i32 0,
      "Copy the DSCP header field to/from the outer header"⟩,
    ⟨.initiator, "initiator", .int32, .i32 0,
      "TRUE if initiator of the exchange creating the SA"⟩,
    ⟨.inbound, "inbound", .int32, .i32 0, "TRUE if this is an inbound SA"⟩,
    ⟨.update, "update", .int32, .i32 0,
      "TRUE if an SPI has already been allocated for this SA"⟩ ]

/-- The flag registrations of `DelSaCommand`, lines 136-140, in source order. -/
def delSaFlags : List (FlagDef DelSaVar) :=
  [ ⟨.src, "src", .string, .str "", "Source address or hostname"⟩,
    ⟨.dst, "dst", .string, .str "", "Destination address or hostname"⟩,
    ⟨.spi, "spi", .uint32, .u32 0, "SPI"⟩,
    ⟨.proto, "proto", .int32, .i32 0, "Protocol (ESP/AH)"⟩,
    ⟨.ifID, "if_id", .uint32, .u32 0, "Interface ID"⟩ ]

/-- The variables in the order in which line 65-66 pass them to `AddSA` (after `ctx`). -/
def addSaCallOrder : List AddSaVar :=
  [ .src, .dst, .spi, .proto, .ifID, .reqid, .mode, .intrface, .encAlg, .encKey, .intAlg,
    .intKey, .replayWindow, .tfc, .encap, .esn, .copyDf, .copyEcn, .copyDscp, .initiator,
    .inbound, .update ]

/-- The variables in the order in which line 128 passes them to `DelSA` (after `ctx`). -/
def delSaCallOrder : List DelSaVar :=
  [ .src, .dst, .spi, .proto, .ifID ]

/-- The argument list of the `AddSA` call of lines 64-67, read from the variables. -/
def addSaArgs (v : Store AddSaVar) : List FlagValue :=
  addSaCallOrder.map v

/-- The argument list of the `DelSA` call of line 128, read from the variables. -/
def delSaArgs (v : Store DelSaVar) : List FlagValue :=
  delSaCallOrder.map v

/-! ## Flag parsing (the flag library, as far as the commands rely on it) -/

/-- The variables after declaration (zero values) and registration: each `XxxVar` call
stores the flag default into its target. -/
def registerFlags {Var : Type} [DecidableEq Var] (typ : Var → FlagType)
    (flags : List (FlagDef Var)) : Store Var :=
  flags.foldl (fun st f => Function.update st f.target f.value) (fun x => (typ x).zero)

/-- The registration carrying the given flag name, first match. -/
def lookupFlag {Var : Type} (flags : List (FlagDef Var)) (name : String) :
    Option (FlagDef Var) :=
  flags.find? (fun f => f.name == name)

/-- One occurrence `--name value` on the command line: an unknown name or a value outside
the flag type is an error, otherwise the value is written to the target variable. -/
def setFlag {Var : Type} [DecidableEq Var] (flags : List (FlagDef Var)) (st : Store Var)
    (name : String) (v : FlagValue) : Except String (Store Var) :=
  match lookupFlag flags name with
  | none => .error ("unknown flag: --" ++ name)
  | some f =>
    if v.hasType f.typ then .ok (Function.update st f.target v)
    else .error ("invalid argument for --" ++ name)

/-- All occurrences of a command line, left to right, stopping at the first error. -/
def parseFlags {Var : Type} [DecidableEq Var] (flags : List (FlagDef Var)) :
    Store Var → List (String × FlagValue) → Except String (Store Var)
  | st, [] => .ok st
  | st, (n, v) :: rest =>
    match setFlag flags st n v with
    | .error e => .error e
    | .ok st1 => parseFlags flags st1 rest

/-- The value the command line supplies for a flag name: its last occurrence, if any. -/
def supplied : List (String × FlagValue) → String → Option FlagValue
  | [], _ => none
  | (n, v) :: rest, name =>
    match supplied rest name with
    | some w => some w
    | none => if n = name then some v else none

/-- In a flag table no two registrations share a target or a name: two entries have the
same target exactly when they have the same name. -/
def tableOk {Var : Type} [DecidableEq Var] (flags : List (FlagDef Var)) : Bool :=
  flags.all (fun f => flags.all (fun g => decide (f.target = g.target ↔ f.name = g.name)))

/-! ## Contexts, clients and the trace of a run -/

/-- A `context.Context`, reduced to its deadline (absolute time in nanoseconds). -/
structure Context where
  deadline : Option Int
deriving DecidableEq, Repr

/-- The empty root context `context.Background()`: it has no deadline. -/
def Background : Context := ⟨none⟩

/-- The duration `time.Second`, in nanoseconds. -/
def Second : Int := 1000000000

/-- The context `context.WithDeadline(parent, d)`: an earlier deadline of the parent wins. -/
def WithDeadline (parent : Context) (d : Int) : Context :=
  match parent.deadline with
  | some cur => if cur < d then parent else ⟨some d⟩
  | none => ⟨some d⟩

/-- The context `context.WithTimeout(parent, timeout)` created at time `now`. -/
def WithTimeout (parent : Context) (timeout : Int) (now : Int) : Context :=
  WithDeadline parent (now + timeout)

/-- The first result of `evpnipsec.NewIPSecClient`: a client, or the nil value. -/
inductive ClientVal where
  | nil
  | client (id : Nat)
deriving DecidableEq, Repr

/-- The first result of `AddSA` / `DelSA`: the response of the remote service, or nil. -/
inductive Ack where
  | nil
  | resp (payload : String)
deriving DecidableEq, Repr

/-- What a call of the method `AddSA` / `DelSA` does: it returns `(data, err)`, or it
panics (a method call through a nil client). -/
inductive CallResult where
  | returned (data : Ack) (err : Option String)
  | panicked (msg : String)
deriving DecidableEq, Repr

/-- The observable actions of a run, in the order in which they happen. `close` is the
release of a client; it is part of the alphabet so that its absence can be stated. -/
inductive Event where
  | stderr (line : String)
  | logPrintf (msg : String)
  | newIPSecClient (addr : String) (tlsFiles : String)
  | addSA (c : ClientVal) (ctx : Context) (args : List FlagValue)
  | delSA (c : ClientVal) (ctx : Context) (args : List FlagValue)
  | println (msg : String) (data : Ack)
  | cancel (ctx : Context)
  | close (c : ClientVal)
deriving DecidableEq, Repr

/-- How a `Run` closure ends: it returns to its caller (a `Run` field has no result, so
nothing is signalled), the process exits with a status, or the goroutine panics. -/
inductive Outcome where
  | returned
  | exit (code : Nat)
  | panic (msg : String)
deriving DecidableEq, Repr

/-- The trace of a run and the way it ended. -/
structure RunResult where
  trace : List Event
  outcome : Outcome
deriving DecidableEq, Repr

/-- Everything a run takes from outside the file. -/
structure Env where
  /-- the constant `common.TLSFiles` -/
  TLSFiles : String
  /-- the constant `common.AddrCmdLineArg` -/
  AddrCmdLineArg : String
  /-- the lookup `c.Flags().GetString(name)` -/
  getString : String → Except String String
  /-- the clock at the time the context is created, in nanoseconds -/
  now : Int
  /-- the function `evpnipsec.NewIPSecClient(addr, tlsFiles)`, both results -/
  NewIPSecClient : String → String → ClientVal × Option String
  /-- the method `AddSA` of the returned client value -/
  AddSA : ClientVal → Context → List FlagValue → CallResult
  /-- the method `DelSA` of the returned client value -/
  DelSA : ClientVal → Context → List FlagValue → CallResult

/-- The call `cobra.CheckErr(err)` with a non-nil error: one line on standard error, then
`os.Exit(1)`. Deferred calls do not run. -/
def checkErrExit (trace : List Event) (err : String) : RunResult :=
  ⟨trace ++ [.stderr ("Error: " ++ err)], .exit 1⟩

/-- The statement `if err != nil { log.Printf("error creating logical bridge: %s\n", err) }`
of lines 61-63, 68-70, 125-127 and 129-131: it logs and falls through. -/
def logIfErr (err : Option String) : List Event :=
  match err with
  | some e => [.logPrintf ("error creating logical bridge: " ++ e ++ "\n")]
  | none => []

/-- The `Run` closure of `AddSaCommand`, lines 50-72, on the variables `v`. -/
def addSaRun (env : Env) (v : Store AddSaVar) : RunResult :=
  -- lines 51-52
  match env.getString env.TLSFiles with
  | .error e => checkErrExit [] e
  | .ok tlsFiles =>
  -- lines 54-55
  match env.getString env.AddrCmdLineArg with
  | .error e => checkErrExit [] e
  | .ok addr =>
  -- lines 57-58
  let ctx := WithTimeout Background (10 * Second) env.now
  -- lines 60-63
  let r := env.NewIPSecClient addr tlsFiles
  let t1 := [Event.newIPSecClient addr tlsFiles] ++ logIfErr r.2
  -- lines 64-67
  let args := addSaArgs v
  match env.AddSA r.1 ctx args with
  | .panicked msg => ⟨t1 ++ [.addSA r.1 ctx args, .cancel ctx], .panic msg⟩
  | .returned data err =>
    -- lines 68-71, then the deferred cancel
    ⟨t1 ++ [.addSA r.1 ctx args] ++ logIfErr err
        ++ [.println "AddSAReq marshaled successfully:" data, .cancel ctx], .returned⟩

/-- The `Run` closure of `DelSaCommand`, lines 116-133, on the variables `v`. -/
def delSaRun (env : Env) (v : Store DelSaVar) : RunResult :=
  -- lines 117-118
  match env.getString env.TLSFiles with
  | .error e => checkErrExit [] e
  | .ok tlsFiles =>
  -- lines 120-121
  match env.getString env.AddrCmdLineArg with
  | .error e => checkErrExit [] e
  | .ok addr =>
  -- lines 122-123
  let ctx := WithTimeout Background (10 * Second) env.now
  -- lines 124-127
  let r := env.NewIPSecClient addr tlsFiles
  let t1 := [Event.newIPSecClient addr tlsFiles] ++ logIfErr r.2
  -- line 128
  let args := delSaArgs v
  match env.DelSA r.1 ctx args with
  | .panicked msg => ⟨t1 ++ [.delSA r.1 ctx args, .cancel ctx], .panic msg⟩
  | .returned data err =>
    -- lines 129-132, then the deferred cancel
    ⟨t1 ++ [.delSA r.1 ctx args] ++ logIfErr err
        ++ [.println "AddSAReq marshaled successfully:" data, .cancel ctx], .returned⟩

/-- The `Run` closure of `NewEvpnIPSecCommand`, lines 152-157: `helpErr` is the result of
`cmd.Help()`; `log.Fatalf` logs and calls `os.Exit(1)`. -/
def evpnIPSecRun (helpErr : Option String) : RunResult :=
  match helpErr with
  | some e => ⟨[.logPrintf ("[ERROR] " ++ e)], .exit 1⟩
  | none => ⟨[], .returned⟩

/-! ## The command tree -/

/-- The fields of a `cobra.Command` literal that the constructors set, plus the names of
the flags registered on the command, in registration order. -/
structure Command where
  use : String
  aliases : List String
  short : String
  flagNames : List String
deriving DecidableEq, Repr

/-- The command literal of `AddSaCommand`, lines 45-49, with its flags. -/
def AddSaCommand : Command :=
  ⟨"add-sa", ["c"], "add-sa functionality", addSaFlags.map (fun f => f.name)⟩

/-- The command literal of `DelSaCommand`, lines 111-115, with its flags. -/
def DelSaCommand : Command :=
  ⟨"Del-sa", ["c"], "add-sa functionality", delSaFlags.map (fun f => f.name)⟩

/-- The parent command of `NewEvpnIPSecCommand`, lines 147-151, and the subcommands added
at lines 160-161 in that order. -/
structure ParentCommand where
  cmd : Command
  commands : List Command
deriving DecidableEq, Repr

/-- The result of `NewEvpnIPSecCommand`, lines 146-163. -/
def NewEvpnIPSecCommand : ParentCommand :=
  ⟨⟨"evpnipsec", ["g"], "Tests ipsec functionality", []⟩, [AddSaCommand, DelSaCommand]⟩

/-- The name of a command, `Command.Name()`: the `Use` line up to its first space. -/
def Command.Name (c : Command) : String :=
  String.mk (c.use.toList.takeWhile (fun ch => ch != ' '))

/-- The test by which the command library selects a subcommand for a word: the word equals
the name of the command or one of its aliases. -/
def Command.identifiedBy (c : Command) (word : String) : Bool :=
  c.Name == word || c.aliases.contains word

/-! ## A whole invocation: parse the flags, then run -/

/-- An invocation of add-sa with the given flag occurrences: the command library parses
the flags into the variables and, when that succeeds, calls the `Run` closure. -/
def executeAddSa (env : Env) (cl : List (String × FlagValue)) : Except String RunResult :=
  match parseFlags addSaFlags (registerFlags AddSaVar.typ addSaFlags) cl with
  | .error e => .error e
  | .ok v => .ok (addSaRun env v)

/-- An invocation of Del-sa with the given flag occurrences. -/
def executeDelSa (env : Env) (cl : List (String × FlagValue)) : Except String RunResult :=
  match parseFlags delSaFlags (registerFlags DelSaVar.typ delSaFlags) cl with
  | .error e => .error e
  | .ok v => .ok (delSaRun env v)

/-! ## Concrete environments and command lines -/

/-- An environment in which every lookup and every call succeeds. -/
def envOk : Env where
  TLSFiles := "tlsfiles"
  AddrCmdLineArg := "addr"
  getString := fun name => if name = "addr" then .ok "localhost:50151" else .ok ""
  now := 0
  NewIPSecClient := fun _ _ => (.client 1, none)
  AddSA := fun _ _ _ => .returned (.resp "ok") none
  DelSA := fun _ _ _ => .returned (.resp "ok") none

/-- An environment in which the connection is made and the remote call fails: `AddSA` and
`DelSA` return a nil response and an error. -/
def envCallFails : Env where
  TLSFiles := "tlsfiles"
  AddrCmdLineArg := "addr"
  getString := fun name => if name = "addr" then .ok "localhost:50151" else .ok ""
  now := 0
  NewIPSecClient := fun _ _ => (.client 1, none)
  AddSA := fun _ _ _ => .returned .nil (some "rpc error: code = DeadlineExceeded")
  DelSA := fun _ _ _ => .returned .nil (some "rpc error: code = NotFound")

/-- An environment in which `NewIPSecClient` fails and returns the nil client with its
error; a method call through the nil client panics. -/
def envConnectFails : Env where
  TLSFiles := "tlsfiles"
  AddrCmdLineArg := "addr"
  getString := fun name => if name = "addr" then .ok "localhost:50151" else .ok ""
  now := 0
  NewIPSecClient := fun _ _ => (.nil, some "tls files not found")
  AddSA := fun c _ _ =>
    match c with
    | .nil => .panicked "invalid memory address or nil pointer dereference"
    | .client _ => .returned (.resp "ok") none
  DelSA := fun c _ _ =>
    match c with
    | .nil => .panicked "invalid memory address or nil pointer dereference"
    | .client _ => .returned (.resp "ok") none

/-- A command line of add-sa: five flags are supplied, `spi` twice. -/
def clAdd : List (String × FlagValue) :=
  [ ("spi", .u32 255), ("src", .str "10.0.0.1"), ("dst", .str "10.0.0.2"),
    ("spi", .u32 256), ("proto", .i32 1), ("mode", .i32 2) ]

/-- A command line of add-sa on which `spi` does not occur. -/
def clNoSpi : List (String × FlagValue) :=
  [ ("src", .str "10.0.0.1"), ("dst", .str "10.0.0.2"), ("proto", .i32 1) ]

/-- A command line of Del-sa. -/
def clDel : List (String × FlagValue) :=
  [ ("dst", .str "10.0.0.2"), ("spi", .u32 256), ("proto", .i32 1) ]

/-- The 22 default values, in the order of the `AddSA` parameters. -/
def addSaDefaults : List FlagValue :=
  [ .str "", .str "", .u32 0, .i32 0, .u32 0, .u32 0, .i32 0, .str "", .i32 0, .str "",
    .i32 0, .str "", .u32 0, .u32 0, .i32 0, .i32 0, .i32 0, .i32 0, .i32 0, .i32 0,
    .i32 0, .i32 0 ]

/-- The `AddSA` arguments that `clAdd` leads to. -/
def clAddArgs : List FlagValue :=
  [ .str "10.0.0.1", .str "10.0.0.2", .u32 256, .i32 1, .u32 0, .u32 0, .i32 2, .str "",
    .i32 0, .str "", .i32 0, .str "", .u32 0, .u32 0, .i32 0, .i32 0, .i32 0, .i32 0,
    .i32 0, .i32 0, .i32 0, .i32 0 ]

/-- The `DelSA` arguments that `clDel` leads to. -/
def clDelArgs : List FlagValue :=
  [ .str "", .str "10.0.0.2", .u32 256, .i32 1, .u32 0 ]

/-- The context every concrete run below creates: clock 0, deadline 10 s later. -/
def ctxExample : Context := ⟨some 10000000000⟩

/-- The run of add-sa on `clAdd` in `envOk`. -/
def runAddExample : RunResult :=
  ⟨[.newIPSecClient "localhost:50151" "", .addSA (.client 1) ctxExample clAddArgs,
    .println "AddSAReq marshaled successfully:" (.resp "ok"), .cancel ctxExample],
   .returned⟩

/-- The run of Del-sa on `clDel` in `envOk`. -/
def runDelExample : RunResult :=
  ⟨[.newIPSecClient "localhost:50151" "", .delSA (.client 1) ctxExample clDelArgs,
    .println "AddSAReq marshaled successfully:" (.resp "ok"), .cancel ctxExample],
   .returned⟩

/-- The run of add-sa in `envOk` when no flag is given. -/
def runDefaultsExample : RunResult :=
  ⟨[.newIPSecClient "localhost:50151" "", .addSA (.client 1) ctxExample addSaDefaults,
    .println "AddSAReq marshaled successfully:" (.resp "ok"), .cancel ctxExample],
   .returned⟩

/-- The run of add-sa on `clNoSpi` in `envOk`: `AddSA` is invoked with spi 0. -/
def runNoSpiExample : RunResult :=
  ⟨[.newIPSecClient "localhost:50151" "",
    .addSA (.client 1) ctxExample
      [ .str "10.0.0.1", .str "10.0.0.2", .u32 0, .i32 1, .u32 0, .u32 0, .i32 0, .str "",
        .i32 0, .str "", .i32 0, .str "", .u32 0, .u32 0, .i32 0, .i32 0, .i32 0, .i32 0,
        .i32 0, .i32 0, .i32 0, .i32 0 ],
    .println "AddSAReq marshaled successfully:" (.resp "ok"), .cancel ctxExample],
   .returned⟩

/-! ## Predicates on traces -/

/-- The event is an invocation of `NewIPSecClient`. -/
def Event.isNewIPSecClient : Event → Bool
  | .newIPSecClient _ _ => true
  | _ => false

/-- The event is an invocation of `AddSA`. -/
def Event.isAddSA : Event → Bool
  | .addSA _ _ _ => true
  | _ => false

/-- The event is an invocation of `DelSA`. -/
def Event.isDelSA : Event → Bool
  | .delSA _ _ _ => true
  | _ => false

/-- The event is the release of a client. -/
def Event.isClose : Event → Bool
  | .close _ => true
  | _ => false

/-- The run ended the process with a non-zero exit status (a panic that reaches the top
of the goroutine ends the process with status 2). -/
def Outcome.nonZeroExit : Outcome → Bool
  | .exit code => decide (code ≠ 0)
  | .panic _ => true
  | .returned => false

/-! ## Flag tables and parsing: general lemmas -/

theorem addSaFlags_tableOk : tableOk addSaFlags = true := by decide

theorem delSaFlags_tableOk : tableOk delSaFlags = true := by decide

theorem tableOk_iff {Var : Type} [DecidableEq Var] {flags : List (FlagDef Var)}
    (h : tableOk flags = true) {f g : FlagDef Var} (hf : f ∈ flags) (hg : g ∈ flags) :
    f.target = g.target ↔ f.name = g.name := by
  unfold tableOk at h
  rw [List.all_eq_true] at h
  have h1 := h f hf
  rw [List.all_eq_true] at h1
  exact of_decide_eq_true (h1 g hg)

theorem lookupFlag_some {Var : Type} {flags : List (FlagDef Var)} {name : String}
    {f : FlagDef Var} (h : lookupFlag flags name = some f) : f ∈ flags ∧ f.name = name := by
  unfold lookupFlag at h
  refine ⟨List.mem_of_find?_eq_some h, ?_⟩
  have := List.find?_some h
  simpa using this

theorem setFlag_ok {Var : Type} [DecidableEq Var] {flags : List (FlagDef Var)}
    {st st1 : Store Var} {name : String} {v : FlagValue}
    (h : setFlag flags st name v = .ok st1) :
    ∃ f, f ∈ flags ∧ f.name = name ∧ v.hasType f.typ = true ∧
      st1 = Function.update st f.target v := by
  unfold setFlag at h
  cases hl : lookupFlag flags name with
  | none => rw [hl] at h; cases h
  | some f =>
    rw [hl] at h
    obtain ⟨hm, hn⟩ := lookupFlag_some hl
    by_cases ht : v.hasType f.typ = true
    · simp only [ht, if_true] at h
      refine ⟨f, hm, hn, ht, ?_⟩
      cases h
      rfl
    · simp only [ht] at h
      cases h

/-- After a successful parse every flag variable holds the last value the command line
supplies for its flag, or what it held before when the flag does not occur. -/
theorem parseFlags_target {Var : Type} [DecidableEq Var] {flags : List (FlagDef Var)}
    (hok : tableOk flags = true) :
    ∀ (cl : List (String × FlagValue)) (st st1 : Store Var),
      parseFlags flags st cl = .ok st1 →
      ∀ f ∈ flags, st1 f.target = (supplied cl f.name).getD (st f.target) := by
  intro cl
  induction cl with
  | nil =>
    intro st st1 h f _
    simp only [parseFlags] at h
    cases h
    simp [supplied]
  | cons p rest ih =>
    obtain ⟨n, v⟩ := p
    intro st st1 h f hf
    simp only [parseFlags] at h
    cases hs : setFlag flags st n v with
    | error e => rw [hs] at h; cases h
    | ok st2 =>
      rw [hs] at h
      have hrest := ih st2 st1 h f hf
      obtain ⟨g, hg, hgn, _, hst2⟩ := setFlag_ok hs
      rw [hrest]
      simp only [supplied]
      cases hsup : supplied rest f.name with
      | some w => simp
      | none =>
        simp only [Option.getD_none]
        by_cases hn : n = f.name
        · have : g.target = f.target := (tableOk_iff hok hg hf).2 (hgn.trans hn)
          simp [hn, hst2, ← this]
        · have : f.target ≠ g.target := fun e =>
            hn (hgn.symm.trans ((tableOk_iff hok hf hg).1 e).symm)
          simp [hn, hst2, Function.update_noteq this]

/-- Every registration of `AddSaCommand` has the type of its target variable, and its
default is a value of that type. -/
theorem addSaFlags_typed :
    ∀ f ∈ addSaFlags, f.typ = f.target.typ ∧ f.value.hasType f.typ = true := by
  decide

/-- Every registration of `DelSaCommand` has the type of its target variable, and its
default is a value of that type. -/
theorem delSaFlags_typed :
    ∀ f ∈ delSaFlags, f.typ = f.target.typ ∧ f.value.hasType f.typ = true := by
  decide

/-- After registration every flag variable of `AddSaCommand` holds its flag default. -/
theorem addSa_registered :
    ∀ f ∈ addSaFlags, registerFlags AddSaVar.typ addSaFlags f.target = f.value := by
  decide

/-- After registration every flag variable of `DelSaCommand` holds its flag default. -/
theorem delSa_registered :
    ∀ f ∈ delSaFlags, registerFlags DelSaVar.typ delSaFlags f.target = f.value := by
  decide

/-- The `AddSA` argument list reads the flag targets in registration order. -/
theorem addSaCallOrder_eq : addSaCallOrder = addSaFlags.map (fun f => f.target) := by
  decide

/-- The `DelSA` argument list reads the flag targets in registration order. -/
theorem delSaCallOrder_eq : delSaCallOrder = delSaFlags.map (fun f => f.target) := by
  decide

/-! ## Runs: how often the collaborators are invoked -/

theorem logIfErr_countP_newIPSecClient (err : Option String) :
    (logIfErr err).countP Event.isNewIPSecClient = 0 := by
  cases err <;> rfl

theorem logIfErr_countP_addSA (err : Option String) :
    (logIfErr err).countP Event.isAddSA = 0 := by
  cases err <;> rfl

theorem logIfErr_countP_delSA (err : Option String) :
    (logIfErr err).countP Event.isDelSA = 0 := by
  cases err <;> rfl

theorem addSaRun_counts (env : Env) (v : Store AddSaVar) :
    (addSaRun env v).trace.countP Event.isNewIPSecClient ≤ 1 ∧
    (addSaRun env v).trace.countP Event.isAddSA ≤ 1 := by
  unfold addSaRun
  split
  · simp [checkErrExit, Event.isNewIPSecClient, Event.isAddSA]
  · split
    · simp [checkErrExit, Event.isNewIPSecClient, Event.isAddSA]
    · dsimp only
      split <;>
        simp [List.countP_append, List.countP_cons, logIfErr_countP_newIPSecClient,
          logIfErr_countP_addSA, Event.isNewIPSecClient, Event.isAddSA]

theorem delSaRun_counts (env : Env) (v : Store DelSaVar) :
    (delSaRun env v).trace.countP Event.isNewIPSecClient ≤ 1 ∧
    (delSaRun env v).trace.countP Event.isDelSA ≤ 1 := by
  unfold delSaRun
  split
  · simp [checkErrExit, Event.isNewIPSecClient, Event.isDelSA]
  · split
    · simp [checkErrExit, Event.isNewIPSecClient, Event.isDelSA]
    · dsimp only
      split <;>
        simp [List.countP_append, List.countP_cons, logIfErr_countP_newIPSecClient,
          logIfErr_countP_delSA, Event.isNewIPSecClient, Event.isDelSA]

/-! ## Runs: what the collaborators are invoked with -/

theorem mem_logIfErr {e : Event} {err : Option String} (h : e ∈ logIfErr err) :
    ∃ msg, e = .logPrintf msg := by
  cases err with
  | none => simp [logIfErr] at h
  | some t => exact ⟨_, by simpa [logIfErr] using h⟩

theorem addSA_not_mem_logIfErr (c : ClientVal) (ctx : Context) (args : List FlagValue)
    (err : Option String) : Event.addSA c ctx args ∉ logIfErr err := by
  intro h
  obtain ⟨msg, hm⟩ := mem_logIfErr h
  cases hm

theorem delSA_not_mem_logIfErr (c : ClientVal) (ctx : Context) (args : List FlagValue)
    (err : Option String) : Event.delSA c ctx args ∉ logIfErr err := by
  intro h
  obtain ⟨msg, hm⟩ := mem_logIfErr h
  cases hm

theorem logIfErr_all_not_close (err : Option String) :
    (logIfErr err).all (fun e => !e.isClose) = true := by
  cases err <;> rfl

/-- Every `AddSA` invocation of a run carries the context created at line 57 and the
variables in the order of lines 65-66. -/
theorem addSaRun_mem_addSA {env : Env} {v : Store AddSaVar} {c : ClientVal} {ctx : Context}
    {args : List FlagValue} (h : Event.addSA c ctx args ∈ (addSaRun env v).trace) :
    ctx = WithTimeout Background (10 * Second) env.now ∧ args = addSaArgs v := by
  unfold addSaRun at h
  split at h
  · simp [checkErrExit] at h
  · split at h
    · simp [checkErrExit] at h
    · dsimp only at h
      split at h <;> simp [addSA_not_mem_logIfErr] at h <;> exact ⟨h.2.1, h.2.2⟩

/-- Every `DelSA` invocation of a run carries the context created at line 122 and the
variables in the order of line 128. -/
theorem delSaRun_mem_delSA {env : Env} {v : Store DelSaVar} {c : ClientVal} {ctx : Context}
    {args : List FlagValue} (h : Event.delSA c ctx args ∈ (delSaRun env v).trace) :
    ctx = WithTimeout Background (10 * Second) env.now ∧ args = delSaArgs v := by
  unfold delSaRun at h
  split at h
  · simp [checkErrExit] at h
  · split at h
    · simp [checkErrExit] at h
    · dsimp only at h
      split at h <;> simp [delSA_not_mem_logIfErr] at h <;> exact ⟨h.2.1, h.2.2⟩

/-- Once both lookups succeed, a run of add-sa starts with `NewIPSecClient`, invokes
`AddSA` on the returned client value, and ends with the deferred cancel. -/
theorem addSaRun_reaches {env : Env} (v : Store AddSaVar) {tlsFiles addr : String}
    (h1 : env.getString env.TLSFiles = .ok tlsFiles)
    (h2 : env.getString env.AddrCmdLineArg = .ok addr) :
    (addSaRun env v).trace.head? = some (.newIPSecClient addr tlsFiles) ∧
    Event.addSA (env.NewIPSecClient addr tlsFiles).1
        (WithTimeout Background (10 * Second) env.now) (addSaArgs v) ∈ (addSaRun env v).trace ∧
    (addSaRun env v).trace.getLast? =
      some (.cancel (WithTimeout Background (10 * Second) env.now)) := by
  unfold addSaRun
  simp only [h1, h2]
  split <;> simp [List.getLast?_cons, List.getLast?_append]

/-- Once both lookups succeed, a run of Del-sa starts with `NewIPSecClient`, invokes
`DelSA` on the returned client value, and ends with the deferred cancel. -/
theorem delSaRun_reaches {env : Env} (v : Store DelSaVar) {tlsFiles addr : String}
    (h1 : env.getString env.TLSFiles = .ok tlsFiles)
    (h2 : env.getString env.AddrCmdLineArg = .ok addr) :
    (delSaRun env v).trace.head? = some (.newIPSecClient addr tlsFiles) ∧
    Event.delSA (env.NewIPSecClient addr tlsFiles).1
        (WithTimeout Background (10 * Second) env.now) (delSaArgs v) ∈ (delSaRun env v).trace ∧
    (delSaRun env v).trace.getLast? =
      some (.cancel (WithTimeout Background (10 * Second) env.now)) := by
  unfold delSaRun
  simp only [h1, h2]
  split <;> simp [List.getLast?_cons, List.getLast?_append]

/-- No run of add-sa releases a client. -/
theorem addSaRun_no_close (env : Env) (v : Store AddSaVar) :
    (addSaRun env v).trace.all (fun e => !e.isClose) = true := by
  unfold addSaRun
  split
  · rfl
  · split
    · rfl
    · dsimp only
      split <;>
        simp only [List.all_append, List.all_cons, List.all_nil, List.cons_append,
          List.nil_append, logIfErr_all_not_close] <;> rfl

/-- No run of Del-sa releases a client. -/
theorem delSaRun_no_close (env : Env) (v : Store DelSaVar) :
    (delSaRun env v).trace.all (fun e => !e.isClose) = true := by
  unfold delSaRun
  split
  · rfl
  · split
    · rfl
    · dsimp only
      split <;>
        simp only [List.all_append, List.all_cons, List.all_nil, List.cons_append,
          List.nil_append, logIfErr_all_not_close] <;> rfl

/-- Once both lookups succeed, a run of add-sa invokes `NewIPSecClient` exactly once and
`AddSA` exactly once. -/
theorem addSaRun_counts_eq {env : Env} (v : Store AddSaVar) {tlsFiles addr : String}
    (h1 : env.getString env.TLSFiles = .ok tlsFiles)
    (h2 : env.getString env.AddrCmdLineArg = .ok addr) :
    (addSaRun env v).trace.countP Event.isNewIPSecClient = 1 ∧
    (addSaRun env v).trace.countP Event.isAddSA = 1 := by
  unfold addSaRun
  simp only [h1, h2]
  split <;>
    simp [List.countP_append, List.countP_cons, logIfErr_countP_newIPSecClient,
      logIfErr_countP_addSA, Event.isNewIPSecClient, Event.isAddSA]

/-- When the `AddSA` call of a run returns an error, the run logs it, prints the line of
line 71 with the returned data, and returns to its caller. -/
theorem addSaRun_of_call_error {env : Env} (v : Store AddSaVar) {tlsFiles addr : String}
    {data : Ack} {e : String}
    (h1 : env.getString env.TLSFiles = .ok tlsFiles)
    (h2 : env.getString env.AddrCmdLineArg = .ok addr)
    (h3 : env.AddSA (env.NewIPSecClient addr tlsFiles).1
      (WithTimeout Background (10 * Second) env.now) (addSaArgs v) = .returned data (some e)) :
    (addSaRun env v).outcome = .returned ∧
    Event.logPrintf ("error creating logical bridge: " ++ e ++ "\n") ∈ (addSaRun env v).trace ∧
    Event.println "AddSAReq marshaled successfully:" data ∈ (addSaRun env v).trace := by
  unfold addSaRun
  simp only [h1, h2, h3]
  simp [logIfErr]

/-- When the `DelSA` call of a run returns an error, the run logs it, prints the line of
line 132 with the returned data, and returns to its caller. -/
theorem delSaRun_of_call_error {env : Env} (v : Store DelSaVar) {tlsFiles addr : String}
    {data : Ack} {e : String}
    (h1 : env.getString env.TLSFiles = .ok tlsFiles)
    (h2 : env.getString env.AddrCmdLineArg = .ok addr)
    (h3 : env.DelSA (env.NewIPSecClient addr tlsFiles).1
      (WithTimeout Background (10 * Second) env.now) (delSaArgs v) = .returned data (some e)) :
    (delSaRun env v).outcome = .returned ∧
    Event.logPrintf ("error creating logical bridge: " ++ e ++ "\n") ∈ (delSaRun env v).trace ∧
    Event.println "AddSAReq marshaled successfully:" data ∈ (delSaRun env v).trace := by
  unfold delSaRun
  simp only [h1, h2, h3]
  simp [logIfErr]

/-- A line printed by a run of add-sa is the line of line 71 and carries the data that
the `AddSA` call of the run returned. -/
theorem addSaRun_println {env : Env} {v : Store AddSaVar} {msg : String} {data : Ack}
    (h : Event.println msg data ∈ (addSaRun env v).trace) :
    msg = "AddSAReq marshaled successfully:" ∧
    ∃ c ctx err, Event.addSA c ctx (addSaArgs v) ∈ (addSaRun env v).trace ∧
      env.AddSA c ctx (addSaArgs v) = .returned data err := by
  have hlog : ∀ err : Option String, Event.println msg data ∉ logIfErr err := by
    intro err hm
    obtain ⟨m, hm⟩ := mem_logIfErr hm
    cases hm
  have hr := @addSaRun_reaches env v
  unfold addSaRun at h
  split at h
  · simp [checkErrExit] at h
  · split at h
    · simp [checkErrExit] at h
    · rename_i _ tlsFiles h1 _ addr h2
      dsimp only at h
      split at h
      · simp [hlog] at h
      · rename_i _ d err h3
        simp [hlog] at h
        refine ⟨h.1, (env.NewIPSecClient addr tlsFiles).1,
          WithTimeout Background (10 * Second) env.now, err, (hr h1 h2).2.1, ?_⟩
        rw [h3, h.2]

/-- The `AddSA` call is made on whatever `NewIPSecClient` returned first, also when the
second result is an error. -/
theorem addSaRun_of_connect_error {env : Env} (v : Store AddSaVar) {tlsFiles addr : String}
    {c : ClientVal} {e : String}
    (h1 : env.getString env.TLSFiles = .ok tlsFiles)
    (h2 : env.getString env.AddrCmdLineArg = .ok addr)
    (h3 : env.NewIPSecClient addr tlsFiles = (c, some e)) :
    Event.addSA c (WithTimeout Background (10 * Second) env.now) (addSaArgs v)
      ∈ (addSaRun env v).trace := by
  have := (addSaRun_reaches v h1 h2).2.1
  rw [h3] at this
  exact this

/-- Once both lookups succeed and `NewIPSecClient` returns no error, the first two
actions of a run of add-sa are the `NewIPSecClient` call and the `AddSA` call on the
returned client: nothing is checked or reported in between. -/
theorem addSaRun_take_two {env : Env} (v : Store AddSaVar) {tlsFiles addr : String}
    (h1 : env.getString env.TLSFiles = .ok tlsFiles)
    (h2 : env.getString env.AddrCmdLineArg = .ok addr)
    (h3 : (env.NewIPSecClient addr tlsFiles).2 = none) :
    (addSaRun env v).trace.take 2 =
      [.newIPSecClient addr tlsFiles,
        .addSA (env.NewIPSecClient addr tlsFiles).1
          (WithTimeout Background (10 * Second) env.now) (addSaArgs v)] := by
  unfold addSaRun
  simp only [h1, h2, h3, logIfErr]
  split <;> simp

/-! ## From an invocation to its run -/

theorem executeAddSa_ok {env : Env} {cl : List (String × FlagValue)} {r : RunResult}
    (h : executeAddSa env cl = .ok r) :
    ∃ v, parseFlags addSaFlags (registerFlags AddSaVar.typ addSaFlags) cl = .ok v ∧
      r = addSaRun env v := by
  unfold executeAddSa at h
  cases hp : parseFlags addSaFlags (registerFlags AddSaVar.typ addSaFlags) cl with
  | error e => rw [hp] at h; cases h
  | ok v =>
    rw [hp] at h
    cases h
    exact ⟨v, rfl, rfl⟩

theorem executeDelSa_ok {env : Env} {cl : List (String × FlagValue)} {r : RunResult}
    (h : executeDelSa env cl = .ok r) :
    ∃ v, parseFlags delSaFlags (registerFlags DelSaVar.typ delSaFlags) cl = .ok v ∧
      r = delSaRun env v := by
  unfold executeDelSa at h
  cases hp : parseFlags delSaFlags (registerFlags DelSaVar.typ delSaFlags) cl with
  | error e => rw [hp] at h; cases h
  | ok v =>
    rw [hp] at h
    cases h
    exact ⟨v, rfl, rfl⟩

/-- After a successful parse the `AddSA` arguments are, flag by flag in registration
order, the supplied value or else the default. -/
theorem addSaArgs_of_parse {cl : List (String × FlagValue)} {v : Store AddSaVar}
    (h : parseFlags addSaFlags (registerFlags AddSaVar.typ addSaFlags) cl = .ok v) :
    addSaArgs v = addSaFlags.map (fun f => (supplied cl f.name).getD f.value) := by
  unfold addSaArgs
  rw [addSaCallOrder_eq, List.map_map]
  apply List.map_congr_left
  intro f hf
  simp only [Function.comp]
  rw [parseFlags_target addSaFlags_tableOk cl _ v h f hf, addSa_registered f hf]

/-- After a successful parse the `DelSA` arguments are, flag by flag in registration
order, the supplied value or else the default. -/
theorem delSaArgs_of_parse {cl : List (String × FlagValue)} {v : Store DelSaVar}
    (h : parseFlags delSaFlags (registerFlags DelSaVar.typ delSaFlags) cl = .ok v) :
    delSaArgs v = delSaFlags.map (fun f => (supplied cl f.name).getD f.value) := by
  unfold delSaArgs
  rw [delSaCallOrder_eq, List.map_map]
  apply List.map_congr_left
  intro f hf
  simp only [Function.comp]
  rw [parseFlags_target delSaFlags_tableOk cl _ v h f hf, delSa_registered f hf]

/-! ## Properties of the specification -/

/-- Claim C3. In every invocation of add-sa that reaches `Run`, each `AddSA` call of the
run receives, in the order src, dst, spi, proto, if_id, reqid, mode, interface, enc_alg,
enc_key, int_alg, int_key, replay_window, tfc, encap, esn, copy_df, copy_ecn, copy_dscp,
initiator, inbound, update, the value given to the flag of that name (its default when the
flag is not given), unmodified; and once the two lookups of lines 51-55 succeed there is
such a call. -/
theorem addSa_call_receives_flag_values (env : Env) (cl : List (String × FlagValue))
    (r : RunResult) (h : executeAddSa env cl = .ok r) :
    addSaFlags.map (fun f => f.name) =
      ["src", "dst", "spi", "proto", "if_id", "reqid", "mode", "interface", "enc_alg",
        "enc_key", "int_alg", "int_key", "replay_window", "tfc", "encap", "esn", "copy_df",
        "copy_ecn", "copy_dscp", "initiator", "inbound", "update"] ∧
    (∀ c ctx args, Event.addSA c ctx args ∈ r.trace →
      args = addSaFlags.map (fun f => (supplied cl f.name).getD f.value)) ∧
    r.trace.countP Event.isAddSA ≤ 1 ∧
    (∀ tlsFiles addr, env.getString env.TLSFiles = .ok tlsFiles →
      env.getString env.AddrCmdLineArg = .ok addr →
      ∃ c ctx, Event.addSA c ctx
        (addSaFlags.map (fun f => (supplied cl f.name).getD f.value)) ∈ r.trace) := by
  obtain ⟨v, hp, hr⟩ := executeAddSa_ok h
  subst hr
  refine ⟨by decide, ?_, (addSaRun_counts env v).2, ?_⟩
  · intro c ctx args hm
    rw [(addSaRun_mem_addSA hm).2, addSaArgs_of_parse hp]
  · intro tlsFiles addr h1 h2
    rw [← addSaArgs_of_parse hp]
    exact ⟨_, _, (addSaRun_reaches v h1 h2).2.1⟩

theorem addSa_call_receives_flag_values_witness :
    executeAddSa envOk clAdd = .ok runAddExample ∧
    Event.addSA (.client 1) ctxExample clAddArgs ∈ runAddExample.trace ∧
    clAddArgs = addSaFlags.map (fun f => (supplied clAdd f.name).getD f.value) :=
  ⟨rfl, by decide,
    (addSa_call_receives_flag_values envOk clAdd runAddExample rfl).2.1
      (.client 1) ctxExample clAddArgs (by decide)⟩

/-- Claim C4. Del-sa registers exactly the five flags src, dst, spi, proto, if_id; each
has the name, type and default of the add-sa flag of that name; and in every invocation
of Del-sa that reaches `Run`, each `DelSA` call receives the values of these five flags,
unmodified and in that order, and there is such a call once the two lookups succeed. -/
theorem delSa_key_is_projection (env : Env) (cl : List (String × FlagValue))
    (r : RunResult) (h : executeDelSa env cl = .ok r) :
    delSaFlags.map (fun f => f.name) = ["src", "dst", "spi", "proto", "if_id"] ∧
    (∀ f ∈ delSaFlags, ∃ g ∈ addSaFlags,
      g.name = f.name ∧ g.typ = f.typ ∧ g.value = f.value) ∧
    (∀ c ctx args, Event.delSA c ctx args ∈ r.trace →
      args = delSaFlags.map (fun f => (supplied cl f.name).getD f.value)) ∧
    (∀ tlsFiles addr, env.getString env.TLSFiles = .ok tlsFiles →
      env.getString env.AddrCmdLineArg = .ok addr →
      ∃ c ctx, Event.delSA c ctx
        (delSaFlags.map (fun f => (supplied cl f.name).getD f.value)) ∈ r.trace) := by
  obtain ⟨v, hp, hr⟩ := executeDelSa_ok h
  subst hr
  refine ⟨by decide, by decide, ?_, ?_⟩
  · intro c ctx args hm
    rw [(delSaRun_mem_delSA hm).2, delSaArgs_of_parse hp]
  · intro tlsFiles addr h1 h2
    rw [← delSaArgs_of_parse hp]
    exact ⟨_, _, (delSaRun_reaches v h1 h2).2.1⟩

theorem delSa_key_is_projection_witness :
    executeDelSa envOk clDel = .ok runDelExample ∧
    Event.delSA (.client 1) ctxExample clDelArgs ∈ runDelExample.trace ∧
    clDelArgs = delSaFlags.map (fun f => (supplied clDel f.name).getD f.value) :=
  ⟨rfl, by decide,
    (delSa_key_is_projection envOk clDel runDelExample rfl).2.2.1
      (.client 1) ctxExample clDelArgs (by decide)⟩

/-- Claim C5. In every run of add-sa and of Del-sa, whatever the variables hold, the
context passed to `AddSA` / `DelSA` is the one the command creates from the background
context with a timeout of 10 seconds: the timeout is positive, equals 10 000 000 000 ns,
and the deadline of the context is the creation time plus that timeout. -/
theorem call_context_deadline_ten_seconds (env : Env) (v : Store AddSaVar)
    (w : Store DelSaVar) :
    (0 : Int) < 10 * Second ∧ 10 * Second = 10000000000 ∧ Background.deadline = none ∧
    (∀ c ctx args, Event.addSA c ctx args ∈ (addSaRun env v).trace →
      ctx = WithTimeout Background (10 * Second) env.now ∧
      ctx.deadline = some (env.now + 10 * Second)) ∧
    (∀ c ctx args, Event.delSA c ctx args ∈ (delSaRun env w).trace →
      ctx = WithTimeout Background (10 * Second) env.now ∧
      ctx.deadline = some (env.now + 10 * Second)) := by
  refine ⟨by decide, by decide, rfl, ?_, ?_⟩
  · intro c ctx args hm
    have h := (addSaRun_mem_addSA hm).1
    exact ⟨h, by rw [h]; rfl⟩
  · intro c ctx args hm
    have h := (delSaRun_mem_delSA hm).1
    exact ⟨h, by rw [h]; rfl⟩

theorem call_context_deadline_ten_seconds_witness :
    Event.addSA (.client 1) ctxExample addSaDefaults
      ∈ (addSaRun envOk (registerFlags AddSaVar.typ addSaFlags)).trace ∧
    ctxExample.deadline = some (envOk.now + 10 * Second) :=
  ⟨by decide,
    ((call_context_deadline_ten_seconds envOk (registerFlags AddSaVar.typ addSaFlags)
      (registerFlags DelSaVar.typ delSaFlags)).2.2.2.1
        (.client 1) ctxExample addSaDefaults (by decide)).2⟩

/-- Claim C6. Every run of add-sa invokes `NewIPSecClient` at most once and `AddSA` at
most once, and every run of Del-sa invokes `NewIPSecClient` at most once and `DelSA` at
most once, whatever these calls return. -/
theorem no_retry_at_most_one_invocation (env : Env) (v : Store AddSaVar)
    (w : Store DelSaVar) :
    (addSaRun env v).trace.countP Event.isNewIPSecClient ≤ 1 ∧
    (addSaRun env v).trace.countP Event.isAddSA ≤ 1 ∧
    (delSaRun env w).trace.countP Event.isNewIPSecClient ≤ 1 ∧
    (delSaRun env w).trace.countP Event.isDelSA ≤ 1 :=
  ⟨(addSaRun_counts env v).1, (addSaRun_counts env v).2, (delSaRun_counts env w).1,
    (delSaRun_counts env w).2⟩

/-- Claim C2, refuted as stated. With no flag given (spi, dst and proto keep 0 / the
empty string) the run of add-sa invokes `NewIPSecClient` and `AddSA` and returns. -/
theorem missing_fields_reach_network_counterexample :
    supplied [] "spi" = none ∧ supplied [] "dst" = none ∧ supplied [] "proto" = none ∧
    executeAddSa envOk [] = .ok runDefaultsExample ∧
    ¬ (∀ e ∈ runDefaultsExample.trace, e.isNewIPSecClient = false ∧ e.isAddSA = false) :=
  ⟨rfl, rfl, rfl, rfl, by decide⟩

/-- Claim C2, amended. In every invocation of add-sa in which spi, dst or proto is not
given, the two lookups of lines 51-55 succeed and `NewIPSecClient` returns no error, the
command validates nothing: the first two actions of the run are the `NewIPSecClient` call
and the `AddSA` call on the returned client, each made exactly once in the run, and each
field that was not given is passed as its default 0 / empty string. -/
theorem missing_fields_not_validated (env : Env) (cl : List (String × FlagValue))
    (r : RunResult) (tlsFiles addr : String) (h : executeAddSa env cl = .ok r)
    (h1 : env.getString env.TLSFiles = .ok tlsFiles)
    (h2 : env.getString env.AddrCmdLineArg = .ok addr)
    (h3 : (env.NewIPSecClient addr tlsFiles).2 = none)
    (_hmiss : supplied cl "spi" = none ∨ supplied cl "dst" = none ∨
      supplied cl "proto" = none) :
    r.trace.countP Event.isNewIPSecClient = 1 ∧
    r.trace.countP Event.isAddSA = 1 ∧
    ∃ args,
      r.trace.take 2 =
        [.newIPSecClient addr tlsFiles,
          .addSA (env.NewIPSecClient addr tlsFiles).1
            (WithTimeout Background (10 * Second) env.now) args] ∧
      (supplied cl "dst" = none → args[1]? = some (.str "")) ∧
      (supplied cl "spi" = none → args[2]? = some (.u32 0)) ∧
      (supplied cl "proto" = none → args[3]? = some (.i32 0)) := by
  obtain ⟨v, hp, hr⟩ := executeAddSa_ok h
  subst hr
  refine ⟨(addSaRun_counts_eq v h1 h2).1, (addSaRun_counts_eq v h1 h2).2, addSaArgs v,
    addSaRun_take_two v h1 h2 h3, ?_⟩
  rw [addSaArgs_of_parse hp]
  refine ⟨?_, ?_, ?_⟩ <;> intro hn <;> simp [addSaFlags, hn]

theorem missing_fields_not_validated_witness :
    executeAddSa envOk clNoSpi = .ok runNoSpiExample ∧
    supplied clNoSpi "spi" = none ∧
    (envOk.NewIPSecClient "localhost:50151" "").2 = none ∧
    runNoSpiExample.trace.countP Event.isNewIPSecClient = 1 ∧
    runNoSpiExample.trace.countP Event.isAddSA = 1 :=
  ⟨rfl, rfl, rfl,
    (missing_fields_not_validated envOk clNoSpi runNoSpiExample "" "localhost:50151" rfl rfl rfl
      rfl (Or.inl rfl)).1,
    (missing_fields_not_validated envOk clNoSpi runNoSpiExample "" "localhost:50151" rfl rfl rfl
      rfl (Or.inl rfl)).2.1⟩

/-- Claim C7, refuted as stated. In `envOk` the call `NewIPSecClient` succeeds, and
neither the run of add-sa nor the run of Del-sa contains a release of the client. -/
theorem client_not_released_counterexample :
    envOk.NewIPSecClient "localhost:50151" "" = (.client 1, none) ∧
    executeAddSa envOk clAdd = .ok runAddExample ∧
    Event.close (.client 1) ∉ runAddExample.trace ∧
    executeDelSa envOk clDel = .ok runDelExample ∧
    Event.close (.client 1) ∉ runDelExample.trace :=
  ⟨rfl, rfl, by decide, rfl, by decide⟩

/-- Claim C7, amended. No run of add-sa or Del-sa releases (closes) a client, on any
path; what the command releases is the context it created: once the two lookups succeed,
the last action of the run is the deferred cancel of that context, whether the call
succeeded, failed or panicked. -/
theorem client_never_released_context_cancelled (env : Env) (v : Store AddSaVar)
    (w : Store DelSaVar) :
    (∀ e ∈ (addSaRun env v).trace, e.isClose = false) ∧
    (∀ e ∈ (delSaRun env w).trace, e.isClose = false) ∧
    (∀ tlsFiles addr, env.getString env.TLSFiles = .ok tlsFiles →
      env.getString env.AddrCmdLineArg = .ok addr →
      (addSaRun env v).trace.getLast? =
        some (.cancel (WithTimeout Background (10 * Second) env.now)) ∧
      (delSaRun env w).trace.getLast? =
        some (.cancel (WithTimeout Background (10 * Second) env.now))) := by
  refine ⟨?_, ?_, ?_⟩
  · have h := addSaRun_no_close env v
    rw [List.all_eq_true] at h
    intro e he
    simpa using h e he
  · have h := delSaRun_no_close env w
    rw [List.all_eq_true] at h
    intro e he
    simpa using h e he
  · intro tlsFiles addr h1 h2
    exact ⟨(addSaRun_reaches v h1 h2).2.2, (delSaRun_reaches w h1 h2).2.2⟩

theorem client_never_released_context_cancelled_witness :
    (addSaRun envOk (registerFlags AddSaVar.typ addSaFlags)).trace.getLast? =
      some (.cancel (WithTimeout Background (10 * Second) envOk.now)) ∧
    (Event.cancel ctxExample).isClose = false :=
  ⟨((client_never_released_context_cancelled envOk (registerFlags AddSaVar.typ addSaFlags)
      (registerFlags DelSaVar.typ delSaFlags)).2.2 "" "localhost:50151" rfl rfl).1,
    (client_never_released_context_cancelled envOk (registerFlags AddSaVar.typ addSaFlags)
      (registerFlags DelSaVar.typ delSaFlags)).1 (.cancel ctxExample) (by decide)⟩

/-- Claim C1, the code at a failing input. In `envCallFails` the calls `AddSA` and `DelSA`
return an error; the run logs it, prints the line of lines 71 / 132 and returns to its
caller: the process is not ended, so no non-zero exit status is produced. -/
theorem call_error_run_returns_normally :
    executeAddSa envCallFails clAdd = .ok
      ⟨[.newIPSecClient "localhost:50151" "", .addSA (.client 1) ctxExample clAddArgs,
        .logPrintf "error creating logical bridge: rpc error: code = DeadlineExceeded\n",
        .println "AddSAReq marshaled successfully:" .nil, .cancel ctxExample],
       .returned⟩ ∧
    executeDelSa envCallFails clDel = .ok
      ⟨[.newIPSecClient "localhost:50151" "", .delSA (.client 1) ctxExample clDelArgs,
        .logPrintf "error creating logical bridge: rpc error: code = NotFound\n",
        .println "AddSAReq marshaled successfully:" .nil, .cancel ctxExample],
       .returned⟩ ∧
    Outcome.nonZeroExit .returned = false ∧
    (checkErrExit [] "flag accessed but not defined: addr").outcome.nonZeroExit = true ∧
    (evpnIPSecRun (some "help failed")).outcome.nonZeroExit = true :=
  ⟨rfl, rfl, rfl, rfl, rfl⟩

/-- Claim C8, the code at a failing input. In `envCallFails` the calls `AddSA` and `DelSA`
return an error and a nil response, and the run still prints the line beginning
"AddSAReq marshaled successfully:". -/
theorem failed_call_printed_as_success :
    envCallFails.AddSA (.client 1) ctxExample addSaDefaults =
      .returned .nil (some "rpc error: code = DeadlineExceeded") ∧
    Event.println "AddSAReq marshaled successfully:" .nil
      ∈ (addSaRun envCallFails (registerFlags AddSaVar.typ addSaFlags)).trace ∧
    envCallFails.DelSA (.client 1) ctxExample (delSaArgs (registerFlags DelSaVar.typ delSaFlags)) =
      .returned .nil (some "rpc error: code = NotFound") ∧
    Event.println "AddSAReq marshaled successfully:" .nil
      ∈ (delSaRun envCallFails (registerFlags DelSaVar.typ delSaFlags)).trace :=
  ⟨rfl, by decide, rfl, by decide⟩

/-- Claim C9, the code at a failing input. In `envConnectFails` the call `NewIPSecClient`
returns the nil client and an error; the run logs the error and goes on to invoke `AddSA`
/ `DelSA` through that nil client, which panics. -/
theorem call_invoked_after_failed_connect :
    envConnectFails.NewIPSecClient "localhost:50151" "" = (.nil, some "tls files not found") ∧
    executeAddSa envConnectFails clAdd = .ok
      ⟨[.newIPSecClient "localhost:50151" "",
        .logPrintf "error creating logical bridge: tls files not found\n",
        .addSA .nil ctxExample clAddArgs, .cancel ctxExample],
       .panic "invalid memory address or nil pointer dereference"⟩ ∧
    executeDelSa envConnectFails clDel = .ok
      ⟨[.newIPSecClient "localhost:50151" "",
        .logPrintf "error creating logical bridge: tls files not found\n",
        .delSA .nil ctxExample clDelArgs, .cancel ctxExample],
       .panic "invalid memory address or nil pointer dereference"⟩ :=
  ⟨rfl, rfl, rfl⟩

/-- Claim C10, the code at a failing input. `NewEvpnIPSecCommand` registers exactly the
two subcommands add-sa and Del-sa, with different names, and the word "c" is an alias of
both of them. -/
theorem alias_c_identifies_both_subcommands :
    NewEvpnIPSecCommand.commands.map Command.Name = ["add-sa", "Del-sa"] ∧
    NewEvpnIPSecCommand.commands.map (fun c => c.aliases) = [["c"], ["c"]] ∧
    NewEvpnIPSecCommand.commands.filter (fun c => c.identifiedBy "c")
      = [AddSaCommand, DelSaCommand] ∧
    NewEvpnIPSecCommand.commands.filter (fun c => c.identifiedBy "add-sa") = [AddSaCommand] ∧
    NewEvpnIPSecCommand.commands.filter (fun c => c.identifiedBy "Del-sa") = [DelSaCommand] := by
  decide

end Evpnipsec
